import Mathlib

/-!
A shallow embedding of the chain-synchronization subsystem of `ldk-lite`
(`src/chain/mod.rs`), together with theorems settling the specification
claims about it.

The embedding models each engine routine as a pure function from an explicit
environment (the outcomes of the external async calls: provider responses,
timeouts, the wall clock, key-value-store write success) and an explicit
state (the in-memory `NodeMetrics`, the persisted copy in the key-value
store, the fee-rate cache) to a result and a successor state.  Code that
lives in this repository but outside `src/` (the `Error` enum, the
`NodeMetrics` struct definition, `write_node_metrics`, the fee-estimator
helpers, `Wallet::apply_update`) is modelled from the spec, as marked on
each definition.
-/

set_option linter.unusedVariables false

namespace LdkLite

/-- Modelled from the spec: the crate-level `Error` enum is not under `src/`;
the variant set is taken from its uses in `src/chain/mod.rs`,
`src/wallet/mod.rs` and `src/payment_store.rs` and from the spec's error
taxonomy (§4.2, §4.4, §4.5, §7). `PersistenceFailed` is the error with which
the key-value persistence boundary surfaces a failed write. -/
inductive Error where
  | WalletOperationFailed
  | WalletOperationTimeout
  | TxSyncTimeout
  | TxSyncFailed
  | FeerateEstimationUpdateTimeout
  | FeerateEstimationUpdateFailed
  | PersistenceFailed
  deriving DecidableEq, Repr

instance {ε α : Type} [DecidableEq ε] [DecidableEq α] : DecidableEq (Except ε α) := fun a b =>
  match a, b with
  | .ok x, .ok y =>
      if h : x = y then isTrue (by rw [h]) else isFalse (fun hh => h (Except.ok.inj hh))
  | .ok _, .error _ => isFalse (fun hh => Except.noConfusion hh)
  | .error _, .ok _ => isFalse (fun hh => Except.noConfusion hh)
  | .error e, .error f =>
      if h : e = f then isTrue (by rw [h]) else isFalse (fun hh => h (Except.error.inj hh))

/-- The `bitcoin::Network` values distinguished by `src/chain/mod.rs` line 480:
`Network::Bitcoin` is the production network, the others are test networks. -/
inductive Network where
  | Bitcoin
  | Testnet
  | Signet
  | Regtest
  deriving DecidableEq, Repr

/-- Modelled from the spec (§3): the persisted `NodeMetrics` record is not
under `src/`; the field set follows the spec's listing, and the four fields
`src/chain/mod.rs` mutates match their uses there (lines 291, 416, 536, 656).
Timestamps are UNIX seconds; the code stores `Option` values obtained from
`SystemTime::now().duration_since(UNIX_EPOCH).ok()`. -/
structure NodeMetrics where
  latest_onchain_wallet_sync_timestamp : Option Nat := none
  latest_lightning_wallet_sync_timestamp : Option Nat := none
  latest_fee_rate_cache_update_timestamp : Option Nat := none
  latest_rgs_snapshot_timestamp : Option Nat := none
  latest_node_announcement_broadcast_timestamp : Option Nat := none
  latest_channel_monitor_archival_height : Option Nat := none
  deriving DecidableEq, Repr

/-- The metrics-relevant state threaded through each routine: the in-memory
`NodeMetrics` (behind the `RwLock` in the code) and the copy last durably
written to the key-value store by `write_node_metrics`. -/
structure ChainState where
  metrics : NodeMetrics
  stored : NodeMetrics
  deriving DecidableEq, Repr

/-- Modelled from the spec (§6, §3): `write_node_metrics` (in `src/io/utils.rs`,
not under `src/`) serializes the given metrics and writes them to the
key-value store, surfacing a failed write as `Error.PersistenceFailed`.  The
write's success is an environment input `persistOk`; on failure the store is
unchanged. -/
def write_node_metrics (persistOk : Bool) (m : NodeMetrics) (stored : NodeMetrics) :
    Except Error NodeMetrics :=
  if persistOk then .ok m else .error .PersistenceFailed

/-- A handle to a `tokio::sync::broadcast` channel's sending side.  The
channel's interior state (receiver count, queued messages) is not part of the
`WalletSyncStatus` enum in the code, so only the channel's identity is
recorded here; the receiver count at send time is an environment input to
`propagate_result_to_subscribers`. -/
structure BroadcastSender where
  chanId : Nat
  deriving DecidableEq, Repr

/-- A subscription handle obtained from `BroadcastSender.subscribe`. -/
structure BroadcastReceiver where
  chanId : Nat
  deriving DecidableEq, Repr

/-- `WalletSyncStatus` from `src/chain/mod.rs` lines 48-51. -/
inductive WalletSyncStatus where
  | Completed
  | InProgress (subscribers : BroadcastSender)
  deriving DecidableEq, Repr

namespace WalletSyncStatus

/-- `WalletSyncStatus::register_or_subscribe_pending_sync`
(`src/chain/mod.rs` lines 54-70).  `freshId` identifies the broadcast
channel newly created by `tokio::sync::broadcast::channel(1)` on the
`Completed` branch (its initial receiver handle is dropped immediately, so
the fresh channel starts with no subscribers).  Returns the optional
subscription together with the updated status. -/
def register_or_subscribe_pending_sync (freshId : Nat) :
    WalletSyncStatus → Option BroadcastReceiver × WalletSyncStatus
  | .Completed =>
      (none, .InProgress ⟨freshId⟩)
  | .InProgress subscribers =>
      (some ⟨subscribers.chanId⟩, .InProgress subscribers)

/-- `WalletSyncStatus::propagate_result_to_subscribers`
(`src/chain/mod.rs` lines 72-99).  `receiverCount` is the channel's receiver
count read at line 82, and `sendOk` the outcome of `subscribers.send(res)`;
a failed send only trips a `debug_assert!` (a no-op in release builds) and
does not alter the control flow.  The second component lists the results
handed to the channel's `send`. -/
def propagate_result_to_subscribers (receiverCount : Nat) (sendOk : Bool)
    (res : Except Error Unit) :
    WalletSyncStatus → WalletSyncStatus × List (Except Error Unit)
  | .Completed =>
      (.Completed, [])
  | .InProgress subscribers =>
      (.Completed, if receiverCount > 0 then [res] else [])

end WalletSyncStatus

/-- The chain query issued by `sync_onchain_wallet`: either
`esplora_client.full_scan(full_scan_request, BDK_CLIENT_STOP_GAP,
BDK_CLIENT_CONCURRENCY)` (`src/chain/mod.rs` lines 333-341) or
`esplora_client.sync(sync_request, BDK_CLIENT_CONCURRENCY)` (lines 344-348).
The stop-gap and concurrency constants live in `src/config.rs` (not under
`src/`), so they are carried as parameters. -/
inductive ScanRequest where
  | fullScan (stop_gap : Nat) (concurrency : Nat)
  | incremental (concurrency : Nat)
  deriving DecidableEq, Repr

/-- The outcome of the awaited, timeout-wrapped scan future together with the
local `apply_update` step, as distinguished by the match in
`get_and_apply_wallet_update!` (`src/chain/mod.rs` lines 272-330):
the outer timeout elapsed; the provider returned an HTTP (`Reqwest`) error;
the provider returned any other Esplora error; the provider returned an
update but `onchain_wallet.apply_update` failed; or the update applied
cleanly. -/
inductive OnchainScanOutcome where
  | timeout
  | esploraErrHttp
  | esploraErrOther
  | applyFail
  | success
  deriving DecidableEq, Repr

/-- A leader invocation of `sync_onchain_wallet` (`src/chain/mod.rs` lines
266-355, the path taken when `register_or_subscribe_pending_sync` returned
`None`): the request it issued, the result it returns (and propagates to
subscribers), and the final metrics state. -/
structure OnchainSyncRun where
  issued : ScanRequest
  result : Except Error Unit
  state : ChainState
  deriving DecidableEq, Repr

/-- The leader path of `ChainSource::sync_onchain_wallet` (`src/chain/mod.rs`
lines 266-355), transcribed branch for branch.  `incremental_sync` is read
from the in-memory metrics (line 270); the branch at lines 332-350 issues
the full scan when `incremental_sync` is `true` and the incremental sync
otherwise, exactly as the source is written.  On a successful apply, the
in-memory timestamp is set to `now` (line 291) and the metrics are then
persisted via `write_node_metrics` (line 292), whose failure propagates via
`?`.  `Wallet::apply_update` is not under `src/`; modelled from the spec
(§4.2: local apply failure → `WalletOperationFailed`), its error — passed
through unchanged at line 296 — is `Error.WalletOperationFailed`. -/
def sync_onchain_wallet_leader (stop_gap concurrency : Nat)
    (outcome : OnchainScanOutcome) (now : Option Nat) (persistOk : Bool)
    (st : ChainState) : OnchainSyncRun :=
  let incremental_sync := st.metrics.latest_onchain_wallet_sync_timestamp.isSome
  let issued :=
    if incremental_sync then ScanRequest.fullScan stop_gap concurrency
    else ScanRequest.incremental concurrency
  match outcome with
  | .timeout => ⟨issued, .error .WalletOperationTimeout, st⟩
  | .esploraErrHttp => ⟨issued, .error .WalletOperationFailed, st⟩
  | .esploraErrOther => ⟨issued, .error .WalletOperationFailed, st⟩
  | .applyFail => ⟨issued, .error .WalletOperationFailed, st⟩
  | .success =>
      let metrics' := { st.metrics with latest_onchain_wallet_sync_timestamp := now }
      match write_node_metrics persistOk metrics' st.stored with
      | .ok stored' => ⟨issued, .ok (), ⟨metrics', stored'⟩⟩
      | .error e => ⟨issued, .error e, ⟨metrics', st.stored⟩⟩

/-- Modelled from the spec: the `lightning_transaction_sync` error type
returned by `tx_sync.sync(confirmables)`; its content is opaque to this
subsystem, which only converts it via `From` (line 436). -/
inductive TxSyncError where
  | failed
  deriving DecidableEq, Repr

/-- Modelled from the spec (§4.4: "provider/sync failure → wrapped and
surfaced as-is"): the `From<TxSyncError> for Error` conversion applied by
`Err(e.into())` at `src/chain/mod.rs` line 436, wrapping the transaction
sync failure into the crate error. -/
def error_from_tx_sync : TxSyncError → Error
  | .failed => .TxSyncFailed

/-- The outcome of the awaited, timeout-wrapped `tx_sync.sync(confirmables)`
future in `sync_lightning_wallet` (`src/chain/mod.rs` lines 396-443). -/
inductive LightningSyncOutcome where
  | timeout
  | syncErr (e : TxSyncError)
  | success
  deriving DecidableEq, Repr

/-- A leader invocation of `sync_lightning_wallet`: the returned result, the
final metrics state, and whether the archival housekeeping body ran (i.e.
`chain_monitor.archive_fully_resolved_channel_monitors()` was invoked). -/
structure LightningSyncRun where
  result : Except Error Unit
  state : ChainState
  archivalRan : Bool
  deriving DecidableEq, Repr

/-- `periodically_archive_fully_resolved_monitors` (`src/chain/mod.rs` lines
643-660).  `interval` is `RESOLVED_CHANNEL_MONITOR_ARCHIVAL_INTERVAL` (from
`src/config.rs`, not under `src/`), `cur_height` is
`channel_manager.current_best_block().height`, and `persistOk` the outcome
of the `write_node_metrics` call at line 657.  Returns the result, the
successor state and whether archival ran. -/
def periodically_archive_fully_resolved_monitors (interval cur_height : Nat)
    (persistOk : Bool) (st : ChainState) :
    Except Error Unit × ChainState × Bool :=
  let should_archive :=
    match st.metrics.latest_channel_monitor_archival_height with
    | none => true
    | some h => cur_height ≥ h + interval
  if should_archive then
    let metrics' :=
      { st.metrics with latest_channel_monitor_archival_height := some cur_height }
    match write_node_metrics persistOk metrics' st.stored with
    | .ok stored' => (.ok (), ⟨metrics', stored'⟩, true)
    | .error e => (.error e, ⟨metrics', st.stored⟩, true)
  else
    (.ok (), st, false)

/-- Modelled from the spec (§4.4, §6): the configured monitor archival
interval in blocks, `RESOLVED_CHANNEL_MONITOR_ARCHIVAL_INTERVAL` from
`src/config.rs` (not under `src/`); the spec's example value. -/
def RESOLVED_CHANNEL_MONITOR_ARCHIVAL_INTERVAL : Nat := 4032

/-- The leader path of `ChainSource::sync_lightning_wallet`
(`src/chain/mod.rs` lines 395-448), transcribed branch for branch.  On a
successful sync pass the lightning timestamp is set to `now` (line 416) and
persisted (line 418, success given by `persistOk₁`, failure propagating via
`?`), after which `periodically_archive_fully_resolved_monitors` runs (line
425, its own write's success given by `persistOk₂`, failure again
propagating via `?`). -/
def sync_lightning_wallet_leader (interval : Nat)
    (outcome : LightningSyncOutcome) (now : Option Nat)
    (persistOk₁ persistOk₂ : Bool) (cur_height : Nat)
    (st : ChainState) : LightningSyncRun :=
  match outcome with
  | .timeout => ⟨.error .TxSyncTimeout, st, false⟩
  | .syncErr e => ⟨.error (error_from_tx_sync e), st, false⟩
  | .success =>
      let metrics' := { st.metrics with latest_lightning_wallet_sync_timestamp := now }
      match write_node_metrics persistOk₁ metrics' st.stored with
      | .error e => ⟨.error e, ⟨metrics', st.stored⟩, false⟩
      | .ok stored' =>
          match periodically_archive_fully_resolved_monitors interval cur_height
              persistOk₂ ⟨metrics', stored'⟩ with
          | (.ok _, st', ran) => ⟨.ok (), st', ran⟩
          | (.error e, st', ran) => ⟨.error e, st', ran⟩

/-- Modelled from the spec (§3, §4.5): the confirmation-target enum of the
fee-rate cache; `src/fee_estimator.rs` is not under `src/`.  The variants are
representative of the tracked categories; their exact identity is immaterial
to the claims settled here. -/
inductive ConfirmationTarget where
  | OnChainSweep
  | MaxAllowedNonAnchorChannelRemoteFee
  | MinAllowedAnchorChannelRemoteFee
  | MinAllowedNonAnchorChannelRemoteFee
  | AnchorChannelFee
  | NonAnchorChannelFee
  | ChannelCloseMinimum
  deriving DecidableEq, Repr

/-- Modelled from the spec (§4.5): `get_all_conf_targets` from
`src/fee_estimator.rs` (not under `src/`), the full list of tracked
confirmation-target categories iterated by the update loop. -/
def get_all_conf_targets : List ConfirmationTarget :=
  [ .OnChainSweep,
    .MaxAllowedNonAnchorChannelRemoteFee,
    .MinAllowedAnchorChannelRemoteFee,
    .MinAllowedNonAnchorChannelRemoteFee,
    .AnchorChannelFee,
    .NonAnchorChannelFee,
    .ChannelCloseMinimum ]

/-- Modelled from the spec (§4.5): `get_num_block_defaults_for_target` from
`src/fee_estimator.rs` (not under `src/`), the per-target confirmation
horizon in blocks handed to the conversion helper; representative default
values, immaterial to the claims settled here. -/
def get_num_block_defaults_for_target : ConfirmationTarget → Nat
  | .OnChainSweep => 6
  | .MaxAllowedNonAnchorChannelRemoteFee => 1
  | .MinAllowedAnchorChannelRemoteFee => 1008
  | .MinAllowedNonAnchorChannelRemoteFee => 1008
  | .AnchorChannelFee => 1008
  | .NonAnchorChannelFee => 12
  | .ChannelCloseMinimum => 144

/-- Modelled from the spec (§4.5): `apply_post_estimation_adjustments` from
`src/fee_estimator.rs` (not under `src/`): a fixed per-target correction
applied to the estimated rate (sats per kilo-weight-unit); representative of
the spec's "fixed per-target corrections", immaterial to the claims settled
here. -/
def apply_post_estimation_adjustments (target : ConfirmationTarget)
    (estimated_rate : Nat) : Nat :=
  match target with
  | .MaxAllowedNonAnchorChannelRemoteFee => estimated_rate + 250
  | _ => estimated_rate

/-- Helper for `convert_fee_rate`: the estimate entry with the largest block
threshold not exceeding `target`, if any. -/
def best_estimate_le (target : Nat) : List (Nat × Nat) → Option (Nat × Nat)
  | [] => none
  | p :: rest =>
      match best_estimate_le target rest with
      | none => if p.1 ≤ target then some p else none
      | some q => if p.1 ≤ target ∧ q.1 < p.1 then some p else some q

/-- Modelled from the spec (§4.5 together with the `esplora_client`
dependency, which is not part of this repository): the
`esplora_client::convert_fee_rate(num_blocks, estimates)` helper called at
`src/chain/mod.rs` line 496.  It derives a concrete sat/vB rate from the raw
estimates map (block-threshold keyed), taking the estimate for the largest
threshold not exceeding the requested horizon and falling back to the
1 sat/vB floor when no entry qualifies (in particular on an empty response,
which is why the spec has the empty response succeed on test networks);
its `Result` is always `Ok`.  Rates are carried as naturals. -/
def convert_fee_rate (num_blocks : Nat) (estimates : List (Nat × Nat)) :
    Except Error Nat :=
  .ok (((best_estimate_le num_blocks estimates).map Prod.snd).getD 1)

/-- The per-target loop of `update_fee_rate_estimates` (`src/chain/mod.rs`
lines 491-523), building the replacement fee-rate cache: for each target,
convert the raw estimates for its block horizon (a conversion failure
propagating via `?` as `FeerateEstimationUpdateFailed`, line 496-506),
scale sat/vB to sat/kwu (the `* 250` of line 509), and apply the
post-estimation adjustment (line 513) before inserting (line 515). -/
def build_fee_rate_cache : List ConfirmationTarget → List (Nat × Nat) →
    Except Error (List (ConfirmationTarget × Nat))
  | [], _ => .ok []
  | target :: rest, estimates =>
      match convert_fee_rate (get_num_block_defaults_for_target target) estimates with
      | .error e => .error .FeerateEstimationUpdateFailed
      | .ok converted_estimate_sat_vb =>
          let fee_rate := converted_estimate_sat_vb * 250
          let adjusted_fee_rate := apply_post_estimation_adjustments target fee_rate
          match build_fee_rate_cache rest estimates with
          | .error e => .error e
          | .ok tail => .ok ((target, adjusted_fee_rate) :: tail)

/-- The outcome of the awaited, timeout-wrapped
`esplora_client.get_fee_estimates()` call (`src/chain/mod.rs` lines
466-478): the bounded wait elapsed, the provider errored, or a raw estimates
map was returned. -/
inductive FeeFetchOutcome where
  | timeout
  | fetchErr
  | ok (estimates : List (Nat × Nat))
  deriving DecidableEq, Repr

/-- The state touched by `update_fee_rate_estimates`: the fee-rate cache
(behind the `RwLock` in `OnchainFeeEstimator`) plus the metrics state. -/
structure FeeUpdateState where
  cache : List (ConfirmationTarget × Nat)
  chain : ChainState
  deriving DecidableEq, Repr

/-- An invocation of `update_fee_rate_estimates`: the returned result and
the final state. -/
structure FeeUpdateRun where
  result : Except Error Unit
  state : FeeUpdateState
  deriving DecidableEq, Repr

/-- `ChainSource::update_fee_rate_estimates` (`src/chain/mod.rs` lines
454-548), transcribed branch for branch: timeout and provider error map to
the two fee-estimation errors (lines 471-478); an empty response on
`Network::Bitcoin` is rejected outright (lines 480-487); otherwise the
replacement cache is built over all tracked targets (lines 489-523), swapped
in via `set_fee_rate_cache` (line 525), and the update timestamp is recorded
in the in-memory metrics (line 536) and persisted (line 537, success given
by `persistOk`, failure propagating via `?`). -/
def update_fee_rate_estimates (network : Network) (fetch : FeeFetchOutcome)
    (now : Option Nat) (persistOk : Bool) (st : FeeUpdateState) : FeeUpdateRun :=
  match fetch with
  | .timeout => ⟨.error .FeerateEstimationUpdateTimeout, st⟩
  | .fetchErr => ⟨.error .FeerateEstimationUpdateFailed, st⟩
  | .ok estimates =>
      if estimates.isEmpty ∧ network = Network.Bitcoin then
        ⟨.error .FeerateEstimationUpdateFailed, st⟩
      else
        match build_fee_rate_cache get_all_conf_targets estimates with
        | .error e => ⟨.error e, st⟩
        | .ok new_fee_rate_cache =>
            let st₁ := { st with cache := new_fee_rate_cache }
            let metrics' :=
              { st₁.chain.metrics with latest_fee_rate_cache_update_timestamp := now }
            match write_node_metrics persistOk metrics' st₁.chain.stored with
            | .ok stored' => ⟨.ok (), { st₁ with chain := ⟨metrics', stored'⟩ }⟩
            | .error e => ⟨.error e, { st₁ with chain := ⟨metrics', st₁.chain.stored⟩ }⟩

/-! ## Helper lemmas -/

/-- `build_fee_rate_cache` never fails: the conversion helper is total, so
the per-target loop always produces a replacement cache. -/
theorem build_fee_rate_cache_isOk (ts : List ConfirmationTarget)
    (est : List (Nat × Nat)) : ∃ c, build_fee_rate_cache ts est = .ok c := by
  induction ts with
  | nil => exact ⟨[], rfl⟩
  | cons t rest ih =>
      obtain ⟨c, hc⟩ := ih
      rw [build_fee_rate_cache, convert_fee_rate, hc]
      exact ⟨_, rfl⟩

/-- Every target the loop iterated over has an entry in the cache it
built. -/
theorem build_fee_rate_cache_covers (ts : List ConfirmationTarget)
    (est : List (Nat × Nat)) (c : List (ConfirmationTarget × Nat))
    (h : build_fee_rate_cache ts est = .ok c) :
    ∀ t ∈ ts, ∃ v, (t, v) ∈ c := by
  induction ts generalizing c with
  | nil => simp
  | cons t rest ih =>
      obtain ⟨tail, htail⟩ := build_fee_rate_cache_isOk rest est
      rw [build_fee_rate_cache, convert_fee_rate, htail] at h
      simp only [Except.ok.injEq] at h
      subst h
      intro u hu
      rcases List.mem_cons.mp hu with hu | hu
      · subst hu
        exact ⟨_, List.mem_cons_self _ _⟩
      · obtain ⟨v, hv⟩ := ih tail htail u hu
        exact ⟨v, List.mem_cons_of_mem _ hv⟩

/-- The archival housekeeping body runs exactly when no archival height is
recorded or the current height has reached the recorded height plus the
interval — a Boolean characterization of the guard at `src/chain/mod.rs`
lines 649-652. -/
theorem archival_ran_eq (interval cur : Nat) (pOk : Bool) (st : ChainState) :
    (periodically_archive_fully_resolved_monitors interval cur pOk st).2.2 =
      (match st.metrics.latest_channel_monitor_archival_height with
       | none => true
       | some h => decide (cur ≥ h + interval)) := by
  unfold periodically_archive_fully_resolved_monitors write_node_metrics
  cases h : st.metrics.latest_channel_monitor_archival_height with
  | none => cases pOk <;> simp
  | some hh =>
      by_cases hc : cur ≥ hh + interval <;> cases pOk <;> simp [hc]

/-- When the archival housekeeping body runs with a succeeding store write,
the persisted metrics carry the current height as the new archival height;
when it does not run, the persisted metrics are untouched. -/
theorem archival_stored_eq (interval cur : Nat) (st : ChainState) :
    (periodically_archive_fully_resolved_monitors interval cur true st).2.1.stored =
      (if (periodically_archive_fully_resolved_monitors interval cur true st).2.2 = true
       then { st.metrics with latest_channel_monitor_archival_height := some cur }
       else st.stored) := by
  unfold periodically_archive_fully_resolved_monitors write_node_metrics
  cases h : st.metrics.latest_channel_monitor_archival_height with
  | none => simp
  | some hh => by_cases hc : cur ≥ hh + interval <;> simp [hc]

/-- A closed-form description of `periodically_archive_fully_resolved_monitors`
by cases on the threshold guard and the store write. -/
theorem periodically_archive_eq (interval cur : Nat) (p : Bool) (st : ChainState) :
    periodically_archive_fully_resolved_monitors interval cur p st =
      (if (match st.metrics.latest_channel_monitor_archival_height with
           | none => true
           | some h => decide (cur ≥ h + interval)) = true
       then
        (if p = true
         then (.ok (),
           ⟨{ st.metrics with latest_channel_monitor_archival_height := some cur },
            { st.metrics with latest_channel_monitor_archival_height := some cur }⟩,
           true)
         else (.error .PersistenceFailed,
           ⟨{ st.metrics with latest_channel_monitor_archival_height := some cur },
            st.stored⟩,
           true))
       else (.ok (), st, false)) := by
  unfold periodically_archive_fully_resolved_monitors write_node_metrics
  cases h : st.metrics.latest_channel_monitor_archival_height with
  | none => cases p <;> simp
  | some hh => by_cases hc : cur ≥ hh + interval <;> cases p <;> simp [hc]

/-- When the first metrics write succeeds, the Lightning sync leader's
remaining work is exactly the archival housekeeping run from the state in
which both metric copies carry the new timestamp. -/
theorem sync_lightning_leader_success_true_eq (interval cur : Nat)
    (now : Option Nat) (p₂ : Bool) (st : ChainState) :
    sync_lightning_wallet_leader interval .success now true p₂ cur st =
      (match periodically_archive_fully_resolved_monitors interval cur p₂
          ⟨{ st.metrics with latest_lightning_wallet_sync_timestamp := now },
           { st.metrics with latest_lightning_wallet_sync_timestamp := now }⟩ with
       | (.ok _, st', ran) => ⟨.ok (), st', ran⟩
       | (.error e, st', ran) => ⟨.error e, st', ran⟩) :=
  rfl

/-- A successful Lightning sync pass either returns success with the
persisted metrics equal to the in-memory metrics, or fails with
`PersistenceFailed` (one of its two `write_node_metrics` calls failed). -/
theorem sync_lightning_leader_success_cases (interval cur : Nat)
    (now : Option Nat) (p₁ p₂ : Bool) (st : ChainState) :
    ((sync_lightning_wallet_leader interval .success now p₁ p₂ cur st).result = .ok () ∧
      (sync_lightning_wallet_leader interval .success now p₁ p₂ cur st).state.stored
        = (sync_lightning_wallet_leader interval .success now p₁ p₂ cur st).state.metrics) ∨
    (sync_lightning_wallet_leader interval .success now p₁ p₂ cur st).result
      = .error .PersistenceFailed := by
  cases p₁ with
  | false => exact Or.inr rfl
  | true =>
      rw [sync_lightning_leader_success_true_eq, periodically_archive_eq]
      by_cases hcond : (match ({ st.metrics with
          latest_lightning_wallet_sync_timestamp := now } :
            NodeMetrics).latest_channel_monitor_archival_height with
          | none => true
          | some h => decide (cur ≥ h + interval)) = true
      · rw [if_pos hcond]
        cases p₂ <;> simp
      · rw [if_neg hcond]
        simp

/-- After a successful Lightning sync pass that got past its first metrics
write, the persisted metrics carry the new lightning sync timestamp — on
every subsequent branch of the archival housekeeping. -/
theorem sync_lightning_leader_stored_timestamp (interval cur : Nat)
    (now : Option Nat) (p₂ : Bool) (st : ChainState) :
    (sync_lightning_wallet_leader interval .success now true p₂ cur
        st).state.stored.latest_lightning_wallet_sync_timestamp = now := by
  rw [sync_lightning_leader_success_true_eq, periodically_archive_eq]
  by_cases hcond : (match ({ st.metrics with
      latest_lightning_wallet_sync_timestamp := now } :
        NodeMetrics).latest_channel_monitor_archival_height with
      | none => true
      | some h => decide (cur ≥ h + interval)) = true
  · rw [if_pos hcond]
    cases p₂ <;> simp
  · rw [if_neg hcond]

/-! ## Claims -/

/-- Claim C1 (code bug): the branch at `src/chain/mod.rs` lines 332-350 is
inverted with respect to its own comment (lines 267-268, "If this is our
first sync, do a full scan with the configured gap limit. Otherwise just do
an incremental sync."), its log strings, and the spec: when no prior
successful onchain sync timestamp is recorded the code issues the
incremental `esplora_client.sync` request, and once a timestamp is recorded
it issues `esplora_client.full_scan` on every subsequent sync.  This theorem
evaluates the embedded code at both inputs. -/
theorem C1_first_sync_issues_incremental_request :
    (sync_onchain_wallet_leader 20 8 .success (some 42) true
        ⟨{}, {}⟩).issued = ScanRequest.incremental 8 ∧
    (sync_onchain_wallet_leader 20 8 .success (some 42) true
        ⟨{ latest_onchain_wallet_sync_timestamp := some 5 }, {}⟩).issued
      = ScanRequest.fullScan 20 8 :=
  ⟨rfl, rfl⟩

/-- Claim C2 (counterexample): with archival interval 4032 and
`latest_channel_monitor_archival_height = 100`, a sync pass reporting height
4199 DOES trigger archival (4199 ≥ 100 + 4032), contradicting the claim's
example that it does not. -/
theorem C2_counterexample :
    (periodically_archive_fully_resolved_monitors
        RESOLVED_CHANNEL_MONITOR_ARCHIVAL_INTERVAL 4199 true
        ⟨{ latest_channel_monitor_archival_height := some 100 }, {}⟩).2.2 = true := by
  decide

/-- Claim C2 (amended): after a successful Lightning sync pass, monitor
archival housekeeping runs if and only if no archival height has been
recorded or `current_height - latest_channel_monitor_archival_height ≥ 4032`
(the configured interval); with interval 4032 and recorded height 100, a
pass reporting height 4131 does not trigger archival while ones reporting
4132 or 4199 do.  When it runs with a succeeding store, the current height
is persisted as the new archival height. -/
theorem C2_archival_threshold (st : ChainState) (cur : Nat) (pOk : Bool) :
    ((periodically_archive_fully_resolved_monitors
        RESOLVED_CHANNEL_MONITOR_ARCHIVAL_INTERVAL cur pOk st).2.2 = true ↔
      (st.metrics.latest_channel_monitor_archival_height = none ∨
        ∃ h, st.metrics.latest_channel_monitor_archival_height = some h ∧
          RESOLVED_CHANNEL_MONITOR_ARCHIVAL_INTERVAL ≤ cur - h)) ∧
    ((periodically_archive_fully_resolved_monitors
        RESOLVED_CHANNEL_MONITOR_ARCHIVAL_INTERVAL cur true st).2.1.stored.latest_channel_monitor_archival_height
      = if (periodically_archive_fully_resolved_monitors
            RESOLVED_CHANNEL_MONITOR_ARCHIVAL_INTERVAL cur true st).2.2 = true
        then some cur
        else st.stored.latest_channel_monitor_archival_height) ∧
    (periodically_archive_fully_resolved_monitors
        RESOLVED_CHANNEL_MONITOR_ARCHIVAL_INTERVAL 4131 true
        ⟨{ latest_channel_monitor_archival_height := some 100 }, {}⟩).2.2 = false ∧
    (periodically_archive_fully_resolved_monitors
        RESOLVED_CHANNEL_MONITOR_ARCHIVAL_INTERVAL 4132 true
        ⟨{ latest_channel_monitor_archival_height := some 100 }, {}⟩).2.2 = true ∧
    (periodically_archive_fully_resolved_monitors
        RESOLVED_CHANNEL_MONITOR_ARCHIVAL_INTERVAL 4199 true
        ⟨{ latest_channel_monitor_archival_height := some 100 }, {}⟩).2.2 = true := by
  refine ⟨?_, ?_, by decide, by decide, by decide⟩
  · rw [archival_ran_eq]
    cases h : st.metrics.latest_channel_monitor_archival_height with
    | none => simp
    | some hh =>
        simp only [h, Option.some.injEq, decide_eq_true_eq, ge_iff_le,
          RESOLVED_CHANNEL_MONITOR_ARCHIVAL_INTERVAL]
        constructor
        · intro hc
          exact Or.inr ⟨hh, rfl, by omega⟩
        · rintro (hc | ⟨h', hh', hc⟩)
          · exact absurd hc (by simp)
          · cases hh'
            omega
  · rw [archival_stored_eq, archival_ran_eq]
    cases h : st.metrics.latest_channel_monitor_archival_height with
    | none => simp
    | some hh => by_cases hc : cur ≥ hh + RESOLVED_CHANNEL_MONITOR_ARCHIVAL_INTERVAL <;>
        simp [hc]

/-- Claim C6: `register_or_subscribe_pending_sync` on a `Completed` status
transitions it to `InProgress` with the freshly created broadcast channel
and returns no subscription (the caller is the leader); on an `InProgress`
status it returns a subscription to the existing notifier and leaves the
status unchanged.  `propagate_result_to_subscribers` on an `InProgress`
status resets it to `Completed`, handing the result to the channel exactly
when subscribers exist, and resets to `Completed` regardless of whether the
broadcast send succeeds. -/
theorem C6_coordinator_transitions (freshId : Nat) (s : BroadcastSender)
    (rc : Nat) (sendOk : Bool) (res : Except Error Unit) :
    WalletSyncStatus.register_or_subscribe_pending_sync freshId .Completed
      = (none, .InProgress ⟨freshId⟩) ∧
    WalletSyncStatus.register_or_subscribe_pending_sync freshId (.InProgress s)
      = (some ⟨s.chanId⟩, .InProgress s) ∧
    WalletSyncStatus.propagate_result_to_subscribers rc sendOk res (.InProgress s)
      = (.Completed, if rc > 0 then [res] else []) :=
  ⟨rfl, rfl, rfl⟩

/-- Claim C7: for a leader invocation of `sync_onchain_wallet`, an elapsed
bounded wait yields `WalletOperationTimeout`, and a provider error (HTTP or
other) or a failed local wallet-state apply yields `WalletOperationFailed`;
for a leader invocation of `sync_lightning_wallet`, a timeout yields
`TxSyncTimeout` and a provider/sync failure is surfaced as its wrapped
conversion. -/
theorem C7_error_mapping (sg c interval cur : Nat) (now : Option Nat)
    (p p₁ p₂ : Bool) (st st' : ChainState) (e : TxSyncError) :
    (sync_onchain_wallet_leader sg c .timeout now p st).result
      = .error .WalletOperationTimeout ∧
    (sync_onchain_wallet_leader sg c .esploraErrHttp now p st).result
      = .error .WalletOperationFailed ∧
    (sync_onchain_wallet_leader sg c .esploraErrOther now p st).result
      = .error .WalletOperationFailed ∧
    (sync_onchain_wallet_leader sg c .applyFail now p st).result
      = .error .WalletOperationFailed ∧
    (sync_lightning_wallet_leader interval .timeout now p₁ p₂ cur st').result
      = .error .TxSyncTimeout ∧
    (sync_lightning_wallet_leader interval (.syncErr e) now p₁ p₂ cur st').result
      = .error (error_from_tx_sync e) :=
  ⟨rfl, rfl, rfl, rfl, rfl, rfl⟩

/-- Claim C10: calling `propagate_result_to_subscribers` on a `Completed`
status is a no-op — nothing is handed to any channel and the status remains
`Completed`. -/
theorem C10_propagate_completed_noop (rc : Nat) (sendOk : Bool)
    (res : Except Error Unit) :
    WalletSyncStatus.propagate_result_to_subscribers rc sendOk res .Completed
      = (.Completed, []) :=
  rfl

/-- Claim C3 (counterexample): a fee-rate update on a test network that
computes its rates but whose `write_node_metrics` call fails returns an
error with the in-memory `latest_fee_rate_cache_update_timestamp` already
advanced to the new value while the persisted copy still lacks it — a
reachable point where the in-memory metric reflects a completed operation
that was not persisted, refuting write-then-update. -/
theorem C3_counterexample :
    (update_fee_rate_estimates .Testnet (.ok [(1, 10)]) (some 42) false
        ⟨[], ⟨{}, {}⟩⟩).result = .error .PersistenceFailed ∧
    (update_fee_rate_estimates .Testnet (.ok [(1, 10)]) (some 42) false
        ⟨[], ⟨{}, {}⟩⟩).state.chain.metrics.latest_fee_rate_cache_update_timestamp
      = some 42 ∧
    (update_fee_rate_estimates .Testnet (.ok [(1, 10)]) (some 42) false
        ⟨[], ⟨{}, {}⟩⟩).state.chain.stored.latest_fee_rate_cache_update_timestamp
      = none := by
  decide

/-- Claim C3 (amended): each sync/update routine records its NodeMetrics
value update-then-write, not write-then-update — it sets the in-memory value
first and then durably writes the metrics while still holding the write
lock.  Whenever a routine returns success, the persisted copy equals the
in-memory copy; if the key-value write fails, the routine returns an error
but the in-memory metric has already advanced beyond the persisted copy. -/
theorem C3_metrics_update_then_write
    (sg c interval cur : Nat) (oc : OnchainScanOutcome)
    (lc : LightningSyncOutcome) (net : Network) (fetch : FeeFetchOutcome)
    (now₁ now₂ now₃ : Option Nat) (p p₁ p₂ p₃ : Bool)
    (st₁ st₂ : ChainState) (st₃ : FeeUpdateState)
    (h₁ : (sync_onchain_wallet_leader sg c oc now₁ p st₁).result = .ok ())
    (h₂ : (sync_lightning_wallet_leader interval lc now₂ p₁ p₂ cur st₂).result = .ok ())
    (h₃ : (update_fee_rate_estimates net fetch now₃ p₃ st₃).result = .ok ()) :
    (sync_onchain_wallet_leader sg c oc now₁ p st₁).state.stored
      = (sync_onchain_wallet_leader sg c oc now₁ p st₁).state.metrics ∧
    (sync_lightning_wallet_leader interval lc now₂ p₁ p₂ cur st₂).state.stored
      = (sync_lightning_wallet_leader interval lc now₂ p₁ p₂ cur st₂).state.metrics ∧
    (update_fee_rate_estimates net fetch now₃ p₃ st₃).state.chain.stored
      = (update_fee_rate_estimates net fetch now₃ p₃ st₃).state.chain.metrics ∧
    (sync_onchain_wallet_leader sg c .success now₁ false st₁).result
      = .error .PersistenceFailed ∧
    (sync_onchain_wallet_leader sg c .success now₁ false st₁).state.metrics.latest_onchain_wallet_sync_timestamp
      = now₁ ∧
    (sync_onchain_wallet_leader sg c .success now₁ false st₁).state.stored
      = st₁.stored := by
  refine ⟨?_, ?_, ?_, rfl, rfl, rfl⟩
  · cases oc <;> cases p <;>
      simp_all [sync_onchain_wallet_leader, write_node_metrics]
  · cases lc with
    | timeout => exact absurd h₂ (by simp [sync_lightning_wallet_leader])
    | syncErr e => exact absurd h₂ (by simp [sync_lightning_wallet_leader])
    | success =>
        rcases sync_lightning_leader_success_cases interval cur now₂ p₁ p₂ st₂ with
          ⟨hok, hst⟩ | herr
        · exact hst
        · rw [herr] at h₂
          exact absurd h₂ (by simp)
  · cases fetch with
    | timeout => exact absurd h₃ (by simp [update_fee_rate_estimates])
    | fetchErr => exact absurd h₃ (by simp [update_fee_rate_estimates])
    | ok est =>
        rw [update_fee_rate_estimates] at h₃ ⊢
        by_cases hemp : est.isEmpty ∧ net = Network.Bitcoin
        · simp [hemp] at h₃
        · obtain ⟨cache, hcache⟩ := build_fee_rate_cache_isOk get_all_conf_targets est
          rw [if_neg hemp, hcache] at h₃ ⊢
          cases p₃ <;> simp_all [write_node_metrics]

/-- Claim C4 (counterexample): a `sync_onchain_wallet` leader invocation
whose wallet update applies but whose `write_node_metrics` call fails
returns an error while the in-memory
`latest_onchain_wallet_sync_timestamp` has advanced from its pre-call value
`some 5` to `some 42` — so the metric does advance on the
persistence-failure path. -/
theorem C4_counterexample :
    (sync_onchain_wallet_leader 20 8 .success (some 42) false
        ⟨{ latest_onchain_wallet_sync_timestamp := some 5 },
          { latest_onchain_wallet_sync_timestamp := some 5 }⟩).result
      = .error .PersistenceFailed ∧
    (sync_onchain_wallet_leader 20 8 .success (some 42) false
        ⟨{ latest_onchain_wallet_sync_timestamp := some 5 },
          { latest_onchain_wallet_sync_timestamp := some 5 }⟩).state.metrics.latest_onchain_wallet_sync_timestamp
      ≠ some 5 := by
  decide

/-- Claim C4 (amended): whenever `sync_onchain_wallet` returns an error
other than a persistence failure, the in-memory
`latest_onchain_wallet_sync_timestamp` and the persisted metrics equal
their pre-call values, and likewise for `sync_lightning_wallet` and
`latest_lightning_wallet_sync_timestamp` (timeout, provider error and local
apply failure paths); a persistence failure, however, surfaces an error
with the in-memory timestamp already advanced (the persisted copy of the
onchain timestamp still unchanged). -/
theorem C4_timestamp_unchanged_on_failure
    (sg c interval cur : Nat) (oc : OnchainScanOutcome)
    (lc : LightningSyncOutcome) (now now' : Option Nat) (p p₁ p₂ : Bool)
    (st st' : ChainState) (e e' : Error)
    (h₁ : (sync_onchain_wallet_leader sg c oc now p st).result = .error e)
    (h₂ : e ≠ .PersistenceFailed)
    (h₃ : (sync_lightning_wallet_leader interval lc now' p₁ p₂ cur st').result = .error e')
    (h₄ : e' ≠ .PersistenceFailed) :
    (sync_onchain_wallet_leader sg c oc now p st).state.metrics.latest_onchain_wallet_sync_timestamp
      = st.metrics.latest_onchain_wallet_sync_timestamp ∧
    (sync_onchain_wallet_leader sg c oc now p st).state.stored = st.stored ∧
    (sync_lightning_wallet_leader interval lc now' p₁ p₂ cur st').state.metrics.latest_lightning_wallet_sync_timestamp
      = st'.metrics.latest_lightning_wallet_sync_timestamp ∧
    (sync_lightning_wallet_leader interval lc now' p₁ p₂ cur st').state.stored
      = st'.stored := by
  refine ⟨?_, ?_, ?_, ?_⟩
  · cases oc <;> cases p <;> simp_all [sync_onchain_wallet_leader, write_node_metrics]
  · cases oc <;> cases p <;> simp_all [sync_onchain_wallet_leader, write_node_metrics]
  all_goals
    cases lc with
    | timeout => rfl
    | syncErr e => rfl
    | success =>
        exfalso
        rcases sync_lightning_leader_success_cases interval cur now' p₁ p₂ st' with
          ⟨hok, hst⟩ | herr
        · rw [hok] at h₃
          exact absurd h₃ (by simp)
        · rw [herr] at h₃
          exact h₄ (Except.error.inj h₃).symm

/-- Witness for `C3_metrics_update_then_write`: concrete succeeding runs of
all three routines, and a concrete persistence-failure run. -/
theorem C3_metrics_update_then_write_witness :
    (sync_onchain_wallet_leader 20 8 .success (some 1) true ⟨{}, {}⟩).state.stored
      = (sync_onchain_wallet_leader 20 8 .success (some 1) true ⟨{}, {}⟩).state.metrics ∧
    (sync_lightning_wallet_leader 4032 .success (some 2) true true 0 ⟨{}, {}⟩).state.stored
      = (sync_lightning_wallet_leader 4032 .success (some 2) true true 0 ⟨{}, {}⟩).state.metrics ∧
    (update_fee_rate_estimates .Testnet (.ok []) (some 3) true ⟨[], ⟨{}, {}⟩⟩).state.chain.stored
      = (update_fee_rate_estimates .Testnet (.ok []) (some 3) true ⟨[], ⟨{}, {}⟩⟩).state.chain.metrics ∧
    (sync_onchain_wallet_leader 20 8 .success (some 1) false ⟨{}, {}⟩).result
      = .error .PersistenceFailed ∧
    (sync_onchain_wallet_leader 20 8 .success (some 1) false
        ⟨{}, {}⟩).state.metrics.latest_onchain_wallet_sync_timestamp = some 1 ∧
    (sync_onchain_wallet_leader 20 8 .success (some 1) false ⟨{}, {}⟩).state.stored
      = ({} : NodeMetrics) :=
  C3_metrics_update_then_write 20 8 4032 0 .success .success .Testnet (.ok [])
    (some 1) (some 2) (some 3) true true true true ⟨{}, {}⟩ ⟨{}, {}⟩
    ⟨[], ⟨{}, {}⟩⟩ (by decide) (by decide) (by decide)

/-- Witness for `C4_timestamp_unchanged_on_failure`: concrete timed-out runs
of both sync routines. -/
theorem C4_timestamp_unchanged_on_failure_witness :
    (sync_onchain_wallet_leader 20 8 .timeout (some 1) true
        ⟨{}, {}⟩).state.metrics.latest_onchain_wallet_sync_timestamp
      = ({} : NodeMetrics).latest_onchain_wallet_sync_timestamp ∧
    (sync_onchain_wallet_leader 20 8 .timeout (some 1) true ⟨{}, {}⟩).state.stored
      = ({} : NodeMetrics) ∧
    (sync_lightning_wallet_leader 4032 .timeout (some 2) true true 0
        ⟨{}, {}⟩).state.metrics.latest_lightning_wallet_sync_timestamp
      = ({} : NodeMetrics).latest_lightning_wallet_sync_timestamp ∧
    (sync_lightning_wallet_leader 4032 .timeout (some 2) true true 0 ⟨{}, {}⟩).state.stored
      = ({} : NodeMetrics) :=
  C4_timestamp_unchanged_on_failure 20 8 4032 0 .timeout .timeout (some 1) (some 2)
    true true true ⟨{}, {}⟩ ⟨{}, {}⟩ .WalletOperationTimeout .TxSyncTimeout
    (by decide) (by decide) (by decide) (by decide)

/-- Claim C5: an empty fee-estimate response on `Network::Bitcoin` makes
`update_fee_rate_estimates` return `FeerateEstimationUpdateFailed` with the
fee-rate cache (and all metrics state) unchanged, while the identical empty
response on any non-Bitcoin network lets the call succeed (the conversion
helper falls back to its floor rate for every target). -/
theorem C5_empty_estimates_network_policy (st : FeeUpdateState)
    (now : Option Nat) (p : Bool) (net : Network) (h : net ≠ Network.Bitcoin) :
    (update_fee_rate_estimates .Bitcoin (.ok []) now p st).result
      = .error .FeerateEstimationUpdateFailed ∧
    (update_fee_rate_estimates .Bitcoin (.ok []) now p st).state = st ∧
    (update_fee_rate_estimates net (.ok []) now true st).result = .ok () := by
  refine ⟨rfl, rfl, ?_⟩
  simp only [update_fee_rate_estimates]
  rw [if_neg (fun hc => h hc.2)]
  rfl

/-- Witness for `C5_empty_estimates_network_policy`: the concrete test
network `Signet` with a concrete pre-populated cache. -/
theorem C5_empty_estimates_network_policy_witness :
    (update_fee_rate_estimates .Bitcoin (.ok []) (some 5) false
        ⟨[(.OnChainSweep, 777)], ⟨{}, {}⟩⟩).result
      = .error .FeerateEstimationUpdateFailed ∧
    (update_fee_rate_estimates .Bitcoin (.ok []) (some 5) false
        ⟨[(.OnChainSweep, 777)], ⟨{}, {}⟩⟩).state
      = ⟨[(.OnChainSweep, 777)], ⟨{}, {}⟩⟩ ∧
    (update_fee_rate_estimates .Signet (.ok []) (some 5) true
        ⟨[(.OnChainSweep, 777)], ⟨{}, {}⟩⟩).result = .ok () :=
  C5_empty_estimates_network_policy ⟨[(.OnChainSweep, 777)], ⟨{}, {}⟩⟩ (some 5)
    false .Signet (by decide)

/-- Claim C8: the archival housekeeping body runs in an invocation of
`sync_lightning_wallet` only when the main sync pass succeeded and the
lightning sync timestamp was persisted — never on a timeout, a sync
failure, or a failed timestamp write; and whenever it runs, the persisted
metrics already carry the new lightning sync timestamp. -/
theorem C8_archival_only_after_success (interval cur : Nat)
    (oc : LightningSyncOutcome) (now : Option Nat) (p₁ p₂ : Bool)
    (st : ChainState)
    (h : (sync_lightning_wallet_leader interval oc now p₁ p₂ cur st).archivalRan = true) :
    oc = .success ∧ p₁ = true ∧
    (sync_lightning_wallet_leader interval oc now p₁ p₂ cur
        st).state.stored.latest_lightning_wallet_sync_timestamp = now := by
  cases oc with
  | timeout => exact Bool.noConfusion h
  | syncErr e => exact Bool.noConfusion h
  | success =>
      cases p₁ with
      | false => exact Bool.noConfusion h
      | true =>
          exact ⟨rfl, rfl, sync_lightning_leader_stored_timestamp interval cur now p₂ st⟩

/-- Witness for `C8_archival_only_after_success`: a concrete successful run
with no recorded archival height, in which archival does run. -/
theorem C8_archival_only_after_success_witness :
    LightningSyncOutcome.success = .success ∧ true = true ∧
    (sync_lightning_wallet_leader 4032 .success (some 9) true true 0
        ⟨{}, {}⟩).state.stored.latest_lightning_wallet_sync_timestamp = some 9 :=
  C8_archival_only_after_success 4032 0 .success (some 9) true true ⟨{}, {}⟩
    (by decide)

/-- Claim C9: whenever `update_fee_rate_estimates` fails with one of its
fetch-or-conversion-stage errors (timeout, provider error, empty estimates
on mainnet, per-target conversion failure — i.e. any error other than the
later persistence failure), the fee-rate cache and the metrics state are
exactly their pre-call values; and whenever any run replaces the cache, the
new cache holds a computed rate for every tracked confirmation target. -/
theorem C9_cache_unchanged_on_error (net : Network) (fetch : FeeFetchOutcome)
    (now : Option Nat) (p : Bool) (st : FeeUpdateState) (e : Error)
    (h₁ : (update_fee_rate_estimates net fetch now p st).result = .error e)
    (h₂ : e ≠ .PersistenceFailed) :
    (update_fee_rate_estimates net fetch now p st).state = st ∧
    ∀ (net' : Network) (fetch' : FeeFetchOutcome) (now' : Option Nat)
      (p' : Bool) (st' : FeeUpdateState),
      (update_fee_rate_estimates net' fetch' now' p' st').state.cache ≠ st'.cache →
      ∀ t ∈ get_all_conf_targets,
        ∃ v, (t, v) ∈ (update_fee_rate_estimates net' fetch' now' p' st').state.cache := by
  constructor
  · cases fetch with
    | timeout => rfl
    | fetchErr => rfl
    | ok est =>
        simp only [update_fee_rate_estimates] at h₁ ⊢
        by_cases hemp : est.isEmpty ∧ net = Network.Bitcoin
        · rw [if_pos hemp]
        · rw [if_neg hemp] at h₁ ⊢
          obtain ⟨cache, hcache⟩ := build_fee_rate_cache_isOk get_all_conf_targets est
          rw [hcache] at h₁ ⊢
          cases p with
          | true => exact absurd h₁ (by simp [write_node_metrics])
          | false =>
              exfalso
              apply h₂
              have := h₁
              simp only [write_node_metrics] at this
              simpa using this.symm
  · intro net' fetch' now' p' st' hne t ht
    cases fetch' with
    | timeout => exact absurd rfl hne
    | fetchErr => exact absurd rfl hne
    | ok est =>
        simp only [update_fee_rate_estimates] at hne ⊢
        by_cases hemp : est.isEmpty ∧ net' = Network.Bitcoin
        · rw [if_pos hemp] at hne
          exact absurd rfl hne
        · rw [if_neg hemp] at hne ⊢
          obtain ⟨cache, hcache⟩ := build_fee_rate_cache_isOk get_all_conf_targets est
          rw [hcache] at hne ⊢
          obtain ⟨v, hv⟩ := build_fee_rate_cache_covers get_all_conf_targets est cache hcache t ht
          cases p' with
          | true => exact ⟨v, by simpa [write_node_metrics] using hv⟩
          | false => exact ⟨v, by simpa [write_node_metrics] using hv⟩

/-- Witness for `C9_cache_unchanged_on_error`: the concrete empty-mainnet
failure with a pre-populated cache. -/
theorem C9_cache_unchanged_on_error_witness :
    (update_fee_rate_estimates .Bitcoin (.ok []) (some 3) true
        ⟨[(.ChannelCloseMinimum, 555)], ⟨{}, {}⟩⟩).state
      = ⟨[(.ChannelCloseMinimum, 555)], ⟨{}, {}⟩⟩ :=
  (C9_cache_unchanged_on_error .Bitcoin (.ok []) (some 3) true
    ⟨[(.ChannelCloseMinimum, 555)], ⟨{}, {}⟩⟩ .FeerateEstimationUpdateFailed
    (by decide) (by decide)).1

end LdkLite
